import Mathlib

set_option maxRecDepth 100000

/-
Verification of the kotomi JWT issuance/verification core against its
specification.  The data model and the payload-construction functions are
transliterated from src/scripts/generate_jwt.py; the signing and
verification machinery that the script delegates to the jwt library (and
that kotomi's server implements outside of the provided sources) is
modelled from the spec, as marked on each definition.
-/

namespace Kotomi

/-- The identity payload (the script's user_info dict): the field id is
required by claim-set construction, every other profile field is optional
pass-through data. -/
structure Identity where
  id : Option String
  name : Option String
  email : Option String
  avatar_url : Option String
  profile_url : Option String
  verified : Option Bool
  roles : Option (List String)
deriving DecidableEq, Repr

/-- A claim set: the payload dict built in generate_hmac_token and
generate_rsa_token (iss, sub, aud, exp, iat, kotomi_user). Timestamps are
integer seconds since the epoch. -/
structure Payload where
  iss : String
  sub : String
  aud : String
  exp : Nat
  iat : Nat
  kotomi_user : Identity
deriving DecidableEq, Repr

/-- The CONFIG dict of src/scripts/generate_jwt.py (lines 21-32), with the
secret at its default value (the environment variable is external
configuration). -/
structure Config where
  secret : String
  issuer : String
  audience : String
  algorithm : String
deriving DecidableEq, Repr

def CONFIG : Config :=
  { secret := "your-secret-key-min-32-chars-long"
    issuer := "https://example.com"
    audience := "kotomi"
    algorithm := "HS256" }

/-- The user_info dict of src/scripts/generate_jwt.py (lines 35-43). -/
def user_info : Identity :=
  { id := some "user-12345"
    name := some "John Doe"
    email := some "john@example.com"
    avatar_url := some "https://example.com/avatar.jpg"
    profile_url := some "https://example.com/profile/john"
    verified := some true
    roles := some ["user", "contributor"] }

/-- Issuer-side errors of the error taxonomy (spec section 7). -/
inductive IssueError where
  | invalidIdentity
  | weakSecret
  | invalidKey
deriving DecidableEq, Repr

/-- Claim-set construction: the payload dict built at
src/scripts/generate_jwt.py lines 50-57 (identically at lines 68-75),
generalized over the identity payload, issuer, audience and ttl as in the
spec's build(identity, issuer, audience, ttl).  The script reads the
required key id of the identity dict; when that key is absent the access
fails, surfaced as InvalidIdentity in the spec's taxonomy.  All other
profile fields are carried through unread inside kotomi_user. -/
def buildClaims (identity : Identity) (iss aud : String) (ttl now : Nat) :
    Except IssueError Payload :=
  match identity.id with
  | none => .error .invalidIdentity
  | some userId =>
      .ok { iss := iss
            sub := userId
            aud := aud
            exp := now + ttl
            iat := now
            kotomi_user := identity }

/-- The payload built by generate_hmac_token
(src/scripts/generate_jwt.py lines 48-57) at clock reading now,
transliterated field by field from the dict literal. -/
def hmacPayload (now : Nat) : Except IssueError Payload :=
  match user_info.id with
  | none => .error .invalidIdentity
  | some userId =>
      .ok { iss := CONFIG.issuer
            sub := userId
            aud := CONFIG.audience
            exp := now + (60 * 60)
            iat := now
            kotomi_user := user_info }

/-- The payload built by generate_rsa_token
(src/scripts/generate_jwt.py lines 66-75) at clock reading now,
transliterated field by field from the dict literal. -/
def rsaPayload (now : Nat) : Except IssueError Payload :=
  match user_info.id with
  | none => .error .invalidIdentity
  | some userId =>
      .ok { iss := CONFIG.issuer
            sub := userId
            aud := CONFIG.audience
            exp := now + (60 * 60)
            iat := now
            kotomi_user := user_info }

/-- The token header: alg declares the signing algorithm, typ is the
constant JWT. -/
structure Header where
  alg : String
  typ : String
deriving DecidableEq, Repr

/-- A deterministic checksum over a string, used to model the keyed MAC.
-/
def strHash (s : String) : Nat :=
  s.data.foldl (fun a c => a * 131 + c.toNat) 7

def serializeOptStr (o : Option String) : String :=
  match o with
  | none => "-"
  | some s => "+" ++ s

def serializeIdentity (u : Identity) : String :=
  serializeOptStr u.id ++ "," ++ serializeOptStr u.name ++ "," ++
  serializeOptStr u.email ++ "," ++ serializeOptStr u.avatar_url ++ "," ++
  serializeOptStr u.profile_url ++ "," ++
  (match u.verified with | none => "-" | some true => "T" | some false => "F") ++ "," ++
  (match u.roles with | none => "-" | some rs => String.intercalate ";" rs)

def serializeHeader (h : Header) : String :=
  "alg=" ++ h.alg ++ ",typ=" ++ h.typ

def serializePayload (c : Payload) : String :=
  "iss=" ++ c.iss ++ ",sub=" ++ c.sub ++ ",aud=" ++ c.aud ++
  ",exp=" ++ toString c.exp ++ ",iat=" ++ toString c.iat ++
  ",user=" ++ serializeIdentity c.kotomi_user

/-- Modelled from the spec: the keyed message-authentication code computed
over the serialized header and claim set with the secret (HMAC-SHA256 in
the spec; the hash internals live in the jwt library, outside src/, and
are abstracted as a concrete keyed checksum — every property proved below
depends only on the MAC being a deterministic function of the key, the
header and the claims). -/
def macSig (key : String) (h : Header) (c : Payload) : Nat :=
  strHash (key ++ "." ++ serializeHeader h ++ "." ++ serializePayload c ++ "." ++ key)

/-- Modelled from the spec: a received token either splits into three
validly encoded segments — header, claim set, signature — or it does not
(wrong segment count or an undecodable segment), which the verifier
reports as Malformed.  The byte-level base64url/JSON encoding is performed
by the jwt library outside src/ and is treated as the identity on parsed
segments. -/
inductive Wire where
  | token (h : Header) (c : Payload) (sig : Nat)
  | garbage
deriving DecidableEq, Repr

/-- Modelled from the spec: issueSymmetric(claims, secret, algorithm) —
serializes the header (alg, typ JWT) and the claim set, computes the keyed
MAC over them, and returns the three-part token; fails with WeakSecret
exactly when the secret is the empty string (a secret shorter than 32
bytes is a lint, not an error). -/
def issueSymmetric (claims : Payload) (secret algorithm : String) :
    Except IssueError Wire :=
  if secret = "" then .error .weakSecret
  else
    .ok (.token { alg := algorithm, typ := "JWT" } claims
          (macSig secret { alg := algorithm, typ := "JWT" } claims))

/-- generate_hmac_token at clock reading now: builds the payload of lines
50-57 and encodes it with CONFIG.secret and CONFIG.algorithm (the encoding
step modelled from the spec). -/
def generate_hmac_token (now : Nat) : Except IssueError Wire :=
  match hmacPayload now with
  | .error e => .error e
  | .ok p => issueSymmetric p CONFIG.secret CONFIG.algorithm

/-- Rejection reasons of the verifier (spec section 7 taxonomy,
verifier side). -/
inductive Reason where
  | malformed
  | algorithmMismatch
  | invalidSignature
  | expired
  | notYetValid
  | issuerMismatch
  | audienceMismatch
deriving DecidableEq, Repr

/-- Outcome of a verification attempt: terminal Accepted(claims) or
Rejected(reason). -/
inductive VerifyResult where
  | accepted (claims : Payload)
  | rejected (r : Reason)
deriving DecidableEq, Repr

/-- The verifier's configuration: key material, allowed algorithms,
expected issuer and audience, clock-skew tolerance.  The script's
jwt.decode call (src/scripts/generate_jwt.py lines 93-96) supplies the
secret, the one-element algorithm list, audience and issuer. -/
structure VerifierConfig where
  key : String
  allowedAlgs : List String
  expectedIssuer : String
  expectedAudience : String
  skew : Nat
deriving DecidableEq, Repr

/-- The verifier configuration used by the script's jwt.decode call
(src/scripts/generate_jwt.py lines 93-96): CONFIG.secret, the single
algorithm CONFIG.algorithm, CONFIG.audience, CONFIG.issuer, and the
default zero leeway. -/
def scriptVerifierConfig : VerifierConfig :=
  { key := CONFIG.secret
    allowedAlgs := [CONFIG.algorithm]
    expectedIssuer := CONFIG.issuer
    expectedAudience := CONFIG.audience
    skew := 0 }

/-- Modelled from the spec: the verifier state machine of spec section 4.3
(the implementation lives in the jwt library and kotomi's server, outside
src/).  Steps in order: parse (Malformed), algorithm allow-list
(AlgorithmMismatch), recomputed MAC comparison (InvalidSignature), then
claim validation in the fixed order expiry strictly after current time
(Expired), issued-at not in the future beyond the skew tolerance
(NotYetValid), issuer equality (IssuerMismatch), audience equality
(AudienceMismatch); on passing all checks the decoded claim set is
returned. -/
def verify (cfg : VerifierConfig) (now : Nat) (w : Wire) : VerifyResult :=
  match w with
  | .garbage => .rejected .malformed
  | .token h c sig =>
      if h.alg ∉ cfg.allowedAlgs then .rejected .algorithmMismatch
      else if sig ≠ macSig cfg.key h c then .rejected .invalidSignature
      else if c.exp ≤ now then .rejected .expired
      else if now + cfg.skew < c.iat then .rejected .notYetValid
      else if c.iss ≠ cfg.expectedIssuer then .rejected .issuerMismatch
      else if c.aud ≠ cfg.expectedAudience then .rejected .audienceMismatch
      else .accepted c

/-- The payload generate_hmac_token builds at clock reading 1000, used as a
concrete instance in witnesses. -/
def samplePayload : Payload :=
  { iss := CONFIG.issuer
    sub := "user-12345"
    aud := CONFIG.audience
    exp := 1000 + 60 * 60
    iat := 1000
    kotomi_user := user_info }

/-- An identity carrying only the required id field, every optional profile
field absent. -/
def idOnlyIdentity : Identity :=
  { id := some "u0", name := none, email := none, avatar_url := none
    profile_url := none, verified := none, roles := none }

lemma xor_two_pow_ne (s i : Nat) : s ^^^ 2 ^ i ≠ s := by
  intro hEq
  have h3 : s ^^^ (s ^^^ 2 ^ i) = s ^^^ s := congrArg (fun t => s ^^^ t) hEq
  rw [← Nat.xor_assoc, Nat.xor_self, Nat.zero_xor] at h3
  simp at h3

/-- Claim C4: the symmetric issuance path fails with a WeakSecret error if
and only if the secret is the empty string; for every non-empty secret —
including secrets shorter than 32 bytes — issuance succeeds and returns
the three-part token. -/
theorem issueSymmetric_weakSecret_iff_empty (claims : Payload)
    (secret algorithm : String) :
    (issueSymmetric claims secret algorithm = .error .weakSecret ↔ secret = "") ∧
    (secret ≠ "" → issueSymmetric claims secret algorithm =
      .ok (.token { alg := algorithm, typ := "JWT" } claims
            (macSig secret { alg := algorithm, typ := "JWT" } claims))) := by
  by_cases hs : secret = "" <;> simp [issueSymmetric, hs]

/-- Witness for C4: issuance with the three-byte secret abc — far shorter
than 32 bytes but non-empty — succeeds. -/
theorem issueSymmetric_weakSecret_iff_empty_witness :
    issueSymmetric samplePayload "abc" "HS256" =
      .ok (.token { alg := "HS256", typ := "JWT" } samplePayload
            (macSig "abc" { alg := "HS256", typ := "JWT" } samplePayload)) :=
  (issueSymmetric_weakSecret_iff_empty samplePayload "abc" "HS256").2 (by decide)

/-- Claim C5: claim-set construction fails with InvalidIdentity exactly
when the identity payload is missing the required field id; whenever id is
present construction succeeds, and every other profile field is carried
through untouched inside kotomi_user. -/
theorem buildClaims_invalidIdentity_iff (identity : Identity)
    (iss aud : String) (ttl now : Nat) :
    (buildClaims identity iss aud ttl now = .error .invalidIdentity ↔
      identity.id = none) ∧
    ∀ userId, identity.id = some userId →
      buildClaims identity iss aud ttl now =
        .ok { iss := iss, sub := userId, aud := aud, exp := now + ttl,
              iat := now, kotomi_user := identity } := by
  cases hid : identity.id with
  | none => simp [buildClaims, hid]
  | some u => simp [buildClaims, hid]

/-- Witness for C5: an identity carrying only id builds successfully, the
absent optional fields passed through. -/
theorem buildClaims_invalidIdentity_iff_witness :
    buildClaims idOnlyIdentity "i" "a" 10 5 =
      .ok { iss := "i", sub := "u0", aud := "a", exp := 5 + 10, iat := 5,
            kotomi_user := idOnlyIdentity } :=
  (buildClaims_invalidIdentity_iff idOnlyIdentity "i" "a" 10 5).2 "u0" rfl

/-- Claim C7: claim-set construction is a pure function of identity,
issuer, audience, ttl and the clock, stamping iat with the clock reading
and exp with iat + ttl; in the script the payload has iat = now and
exp = now + 3600 with iss, sub and aud taken unchanged from the
configuration and identity. -/
theorem buildClaims_stamps_times (identity : Identity)
    (userId iss aud : String) (ttl now : Nat)
    (hid : identity.id = some userId) :
    buildClaims identity iss aud ttl now =
      .ok { iss := iss, sub := userId, aud := aud, exp := now + ttl,
            iat := now, kotomi_user := identity } ∧
    hmacPayload now =
      .ok { iss := CONFIG.issuer, sub := "user-12345", aud := CONFIG.audience,
            exp := now + 3600, iat := now, kotomi_user := user_info } := by
  constructor
  · simp [buildClaims, hid]
  · rfl

/-- Witness for C7 at the script's identity and clock reading 1000. -/
theorem buildClaims_stamps_times_witness :
    buildClaims user_info "https://example.com" "kotomi" 3600 1000 =
      .ok { iss := "https://example.com", sub := "user-12345", aud := "kotomi",
            exp := 1000 + 3600, iat := 1000, kotomi_user := user_info } ∧
    hmacPayload 1000 =
      .ok { iss := CONFIG.issuer, sub := "user-12345", aud := CONFIG.audience,
            exp := 1000 + 3600, iat := 1000, kotomi_user := user_info } :=
  buildClaims_stamps_times user_info "user-12345" "https://example.com" "kotomi"
    3600 1000 rfl

/-- Claim C8: every claim set the issuer produces — on either issuance
path — has expiry strictly after issued-at and a non-empty subject. -/
theorem issuedClaims_invariant (now : Nat) :
    ∃ p, hmacPayload now = .ok p ∧ rsaPayload now = .ok p ∧
      p.iat < p.exp ∧ p.sub ≠ "" :=
  ⟨{ iss := CONFIG.issuer, sub := "user-12345", aud := CONFIG.audience,
     exp := now + 60 * 60, iat := now, kotomi_user := user_info },
   rfl, rfl, by simp, by show ("user-12345" : String) ≠ ""; decide⟩

/-- Claim C9: issuance and verification are deterministic, stateless
functions of their explicit inputs and a single clock reading — equal
inputs produce identical tokens and identical outcomes, there being no
other state for either function to read or write. -/
theorem issue_verify_deterministic
    (c c2 : Payload) (s s2 a a2 : String) (cfg cfg2 : VerifierConfig)
    (n n2 m m2 : Nat) (w w2 : Wire)
    (hc : c = c2) (hs : s = s2) (ha : a = a2) (hcfg : cfg = cfg2)
    (hn : n = n2) (hm : m = m2) (hw : w = w2) :
    issueSymmetric c s a = issueSymmetric c2 s2 a2 ∧
    generate_hmac_token n = generate_hmac_token n2 ∧
    verify cfg m w = verify cfg2 m2 w2 := by
  subst hc hs ha hcfg hn hm hw
  exact ⟨rfl, rfl, rfl⟩

/-- Witness for C9 at concrete equal inputs. -/
theorem issue_verify_deterministic_witness :
    issueSymmetric samplePayload "k" "HS256" = issueSymmetric samplePayload "k" "HS256" ∧
    generate_hmac_token 1000 = generate_hmac_token 1000 ∧
    verify scriptVerifierConfig 3 .garbage = verify scriptVerifierConfig 3 .garbage :=
  issue_verify_deterministic samplePayload samplePayload "k" "k" "HS256" "HS256"
    scriptVerifierConfig scriptVerifierConfig 1000 1000 3 3 .garbage .garbage
    rfl rfl rfl rfl rfl rfl rfl

/-- Claim C10: for the same clock reading the symmetric and asymmetric
issuance paths construct identical claim payloads, both equal to the one
shared claim-building function applied at ttl 3600; the paths differ only
in key material and algorithm handed to the encoding step. -/
theorem hmac_rsa_payloads_agree (now : Nat) :
    hmacPayload now = rsaPayload now ∧
    hmacPayload now = buildClaims user_info CONFIG.issuer CONFIG.audience
      (60 * 60) now :=
  ⟨rfl, rfl⟩

/-- Claim C1: for every valid claim set and matching symmetric key,
verifying a token produced by the issuer with that same key — same secret,
an allowed algorithm, matching expected issuer and audience, at a clock
reading inside the validity window — yields Accepted with a decoded claim
set equal to the input claim set. -/
theorem issue_verify_roundtrip (claims : Payload) (secret algorithm : String)
    (cfg : VerifierConfig) (now : Nat)
    (hsec : secret ≠ "") (hkey : cfg.key = secret)
    (halg : algorithm ∈ cfg.allowedAlgs)
    (hexp : now < claims.exp) (hiat : claims.iat ≤ now + cfg.skew)
    (hiss : claims.iss = cfg.expectedIssuer)
    (haud : claims.aud = cfg.expectedAudience) :
    ∃ w, issueSymmetric claims secret algorithm = .ok w ∧
      verify cfg now w = .accepted claims := by
  subst hkey
  refine ⟨.token { alg := algorithm, typ := "JWT" } claims
      (macSig cfg.key { alg := algorithm, typ := "JWT" } claims), ?_, ?_⟩
  · simp [issueSymmetric, hsec]
  · simp [verify, halg, hiss, haud, Nat.not_le.mpr hexp, Nat.not_lt.mpr hiat]

/-- Witness for C1: the token generate_hmac_token builds at clock reading
1000, decoded by the script's jwt.decode configuration at that same clock
reading, is accepted with the original payload. -/
theorem issue_verify_roundtrip_witness :
    ∃ w, generate_hmac_token 1000 = .ok w ∧
      verify scriptVerifierConfig 1000 w = .accepted samplePayload :=
  issue_verify_roundtrip samplePayload CONFIG.secret "HS256"
    scriptVerifierConfig 1000 (by decide) rfl (by decide) (by decide)
    (by decide) rfl rfl

/-- Claim C2: for every valid token, flipping any single bit of the
signature segment — so that it no longer equals the MAC recomputed over
header and claims with the configured key — makes verification return
Rejected with reason InvalidSignature, at every bit position. -/
theorem tampered_signature_rejected (claims : Payload)
    (secret algorithm : String) (cfg : VerifierConfig) (now : Nat)
    (h : Header) (sig i : Nat)
    (hw : issueSymmetric claims secret algorithm = .ok (.token h claims sig))
    (hkey : cfg.key = secret) (halg : algorithm ∈ cfg.allowedAlgs) :
    verify cfg now (.token h claims (sig ^^^ 2 ^ i)) =
      .rejected .invalidSignature := by
  subst hkey
  by_cases hs : cfg.key = ""
  · simp [issueSymmetric, hs] at hw
  · simp only [issueSymmetric, if_neg hs, Except.ok.injEq, Wire.token.injEq,
      true_and, and_true] at hw
    obtain ⟨hh, hsig⟩ := hw
    subst hh
    subst hsig
    simp [verify, halg, xor_two_pow_ne]

/-- Witness for C2: the script's token at clock reading 1000 with the
lowest bit of its signature flipped is rejected as InvalidSignature. -/
theorem tampered_signature_rejected_witness :
    verify scriptVerifierConfig 1000
      (.token { alg := "HS256", typ := "JWT" } samplePayload
        (macSig CONFIG.secret { alg := "HS256", typ := "JWT" } samplePayload ^^^ 2 ^ 0)) =
      .rejected .invalidSignature :=
  tampered_signature_rejected samplePayload CONFIG.secret "HS256"
    scriptVerifierConfig 1000 { alg := "HS256", typ := "JWT" }
    (macSig CONFIG.secret { alg := "HS256", typ := "JWT" } samplePayload) 0
    rfl rfl (by decide)

/-- Claim C3: on a token that passes the parse, algorithm and signature
checks, claim validation runs in the fixed order expiry, issued-at,
issuer, audience, reporting the earliest failing reason: Expired exactly
when expiry is not strictly after the clock; NotYetValid exactly when
expiry passes but issued-at exceeds clock plus skew; IssuerMismatch
exactly when both time checks pass and the issuer differs; and
AudienceMismatch exactly when all the former pass and the audience
differs. -/
theorem claim_validation_order (cfg : VerifierConfig) (now : Nat)
    (h : Header) (c : Payload) (sig : Nat)
    (halg : h.alg ∈ cfg.allowedAlgs) (hsig : sig = macSig cfg.key h c) :
    (verify cfg now (.token h c sig) = .rejected .expired ↔ c.exp ≤ now) ∧
    (verify cfg now (.token h c sig) = .rejected .notYetValid ↔
      now < c.exp ∧ now + cfg.skew < c.iat) ∧
    (verify cfg now (.token h c sig) = .rejected .issuerMismatch ↔
      now < c.exp ∧ c.iat ≤ now + cfg.skew ∧ c.iss ≠ cfg.expectedIssuer) ∧
    (verify cfg now (.token h c sig) = .rejected .audienceMismatch ↔
      now < c.exp ∧ c.iat ≤ now + cfg.skew ∧ c.iss = cfg.expectedIssuer ∧
        c.aud ≠ cfg.expectedAudience) := by
  subst hsig
  have hv : verify cfg now (.token h c (macSig cfg.key h c)) =
      (if c.exp ≤ now then .rejected .expired
       else if now + cfg.skew < c.iat then .rejected .notYetValid
       else if c.iss ≠ cfg.expectedIssuer then .rejected .issuerMismatch
       else if c.aud ≠ cfg.expectedAudience then .rejected .audienceMismatch
       else .accepted c) := by
    simp [verify, halg]
  rw [hv]
  split_ifs with h1 h2 h3 h4 <;> simp_all [Nat.not_le, Nat.not_lt]

/-- A payload that is simultaneously expired and addressed to the wrong
audience, used to exercise the ordering of claim validation. -/
def expiredWrongAud : Payload :=
  { iss := CONFIG.issuer
    sub := "user-12345"
    aud := "other-service"
    exp := 5
    iat := 0
    kotomi_user := user_info }

/-- Witness for C3: a token failing both the expiry check and the audience
check is characterized as Expired, the earliest failing reason. -/
theorem claim_validation_order_witness :
    verify scriptVerifierConfig 10
      (.token { alg := "HS256", typ := "JWT" } expiredWrongAud
        (macSig CONFIG.secret { alg := "HS256", typ := "JWT" } expiredWrongAud)) =
      .rejected .expired ↔ expiredWrongAud.exp ≤ 10 :=
  (claim_validation_order scriptVerifierConfig 10 { alg := "HS256", typ := "JWT" }
    expiredWrongAud
    (macSig CONFIG.secret { alg := "HS256", typ := "JWT" } expiredWrongAud)
    (by decide) rfl).1

/-- Claim C6: verification is a total function into a tagged result type —
every outcome is Accepted or a Rejected carrying one specific reason from
the error taxonomy, never an unhandled fault — and every one of the seven
rejection reasons is actually produced on some input, so failures are
differentiated rather than collapsed into a catch-all. -/
theorem verifier_structured_rejections :
    (∀ cfg now w, (∃ c, verify cfg now w = .accepted c) ∨
      ∃ r, verify cfg now w = .rejected r) ∧
    ∀ r : Reason, ∃ cfg now w, verify cfg now w = .rejected r := by
  constructor
  · intro cfg now w
    cases hv : verify cfg now w with
    | accepted c => exact Or.inl ⟨c, rfl⟩
    | rejected r => exact Or.inr ⟨r, rfl⟩
  · intro r
    cases r with
    | malformed => exact ⟨scriptVerifierConfig, 0, .garbage, rfl⟩
    | algorithmMismatch =>
        exact ⟨scriptVerifierConfig, 0,
          .token { alg := "RS256", typ := "JWT" } samplePayload 0, by decide⟩
    | invalidSignature =>
        exact ⟨scriptVerifierConfig, 0,
          .token { alg := "HS256", typ := "JWT" } samplePayload
            (macSig CONFIG.secret { alg := "HS256", typ := "JWT" } samplePayload + 1),
          by decide⟩
    | expired =>
        exact ⟨scriptVerifierConfig, 5000,
          .token { alg := "HS256", typ := "JWT" } samplePayload
            (macSig CONFIG.secret { alg := "HS256", typ := "JWT" } samplePayload),
          by decide⟩
    | notYetValid =>
        exact ⟨scriptVerifierConfig, 500,
          .token { alg := "HS256", typ := "JWT" } samplePayload
            (macSig CONFIG.secret { alg := "HS256", typ := "JWT" } samplePayload),
          by decide⟩
    | issuerMismatch =>
        exact ⟨{ key := CONFIG.secret, allowedAlgs := ["HS256"],
                 expectedIssuer := "https://other.example",
                 expectedAudience := CONFIG.audience, skew := 0 }, 2000,
          .token { alg := "HS256", typ := "JWT" } samplePayload
            (macSig CONFIG.secret { alg := "HS256", typ := "JWT" } samplePayload),
          by decide⟩
    | audienceMismatch =>
        exact ⟨{ key := CONFIG.secret, allowedAlgs := ["HS256"],
                 expectedIssuer := CONFIG.issuer,
                 expectedAudience := "other-service", skew := 0 }, 2000,
          .token { alg := "HS256", typ := "JWT" } samplePayload
            (macSig CONFIG.secret { alg := "HS256", typ := "JWT" } samplePayload),
          by decide⟩

end Kotomi
